import Mathlib

/-!
Shallow embedding, over the real numbers, of the unscented Kalman filter in
src/ukf.cpp (class UKF).  Machine doubles are modelled as ℝ; Eigen vectors and
matrices become functions out of Fin n and Mathlib matrices.  The Eigen Cholesky
factorisation (P_aug.llt().matrixL()), which is external library code, is
abstracted as an explicit parameter chol wherever the source calls it.
Member variables keep their C++ names (trailing underscore included).
-/

namespace UKF

open scoped Classical

/-- Constants set in the constructor UKF::UKF (src/ukf.cpp lines 12-92). -/
def n_x_ : ℕ := 5

/-- Augmented state dimension, set in UKF::UKF. -/
def n_aug_ : ℕ := 7

/-- Radar measurement dimension, set in UKF::UKF. -/
def n_z_ : ℕ := 3

/-- Process noise standard deviation, longitudinal acceleration. -/
noncomputable def std_a_ : ℝ := 3.0

/-- Process noise standard deviation, yaw acceleration. -/
noncomputable def std_yawdd_ : ℝ := 1.0

/-- Laser measurement noise standard deviation, position1. -/
noncomputable def std_laspx_ : ℝ := 0.15

/-- Laser measurement noise standard deviation, position2. -/
noncomputable def std_laspy_ : ℝ := 0.15

/-- Radar measurement noise standard deviation, radius. -/
noncomputable def std_radr_ : ℝ := 0.3

/-- Radar measurement noise standard deviation, angle. -/
noncomputable def std_radphi_ : ℝ := 0.03

/-- Radar measurement noise standard deviation, radius change. -/
noncomputable def std_radrd_ : ℝ := 0.3

/-- Sigma point spreading parameter: lambda_ = 3.0 - n_x_. -/
noncomputable def lambda_ : ℝ := 3.0 - (n_x_ : ℝ)

/-- The sigma point weights: weights_(0) = lambda_/(lambda_+n_aug_) and
weights_(i) = 0.5/(lambda_+n_aug_) for 1 ≤ i ≤ 2*n_aug_. -/
noncomputable def weights_ : Fin 15 → ℝ := fun i =>
  if i = 0 then lambda_ / (lambda_ + (n_aug_ : ℝ)) else 0.5 / (lambda_ + (n_aug_ : ℝ))

/-- Laser measurement matrix H_ (a 2x5 matrix). -/
noncomputable def H_ : Matrix (Fin 2) (Fin 5) ℝ :=
  !![1, 0, 0, 0, 0; 0, 1, 0, 0, 0]

/-- Laser measurement covariance matrix RL_. -/
noncomputable def RL_ : Matrix (Fin 2) (Fin 2) ℝ :=
  !![std_laspx_ * std_laspx_, 0; 0, std_laspy_ * std_laspy_]

/-- Radar measurement covariance matrix RR_. -/
noncomputable def RR_ : Matrix (Fin 3) (Fin 3) ℝ :=
  !![std_radr_ * std_radr_, 0, 0;
     0, std_radphi_ * std_radphi_, 0;
     0, 0, std_radrd_ * std_radrd_]

/-- First angle-normalization while loop of the source,
`while (d > M_PI) d -= 2. * M_PI;`, as a well-founded recursion. -/
noncomputable def normHi (d : ℝ) : ℝ :=
  if Real.pi < d then normHi (d - 2 * Real.pi) else d
termination_by Nat.ceil ((d - Real.pi) / (2 * Real.pi))
decreasing_by
  have hpi : (0 : ℝ) < 2 * Real.pi := by positivity
  have hq : 0 < (d - Real.pi) / (2 * Real.pi) := by
    apply div_pos _ hpi
    linarith
  have hrw : (d - 2 * Real.pi - Real.pi) / (2 * Real.pi)
      = (d - Real.pi) / (2 * Real.pi) - 1 := by
    field_simp
    ring
  rw [hrw]
  have h1 : 1 ≤ Nat.ceil ((d - Real.pi) / (2 * Real.pi)) :=
    Nat.one_le_ceil_iff.mpr hq
  have h2 : Nat.ceil ((d - Real.pi) / (2 * Real.pi) - 1)
      ≤ Nat.ceil ((d - Real.pi) / (2 * Real.pi)) - 1 := by
    apply Nat.ceil_le.mpr
    push_cast [Nat.cast_sub h1]
    have := Nat.le_ceil ((d - Real.pi) / (2 * Real.pi))
    linarith
  omega

/-- Second angle-normalization while loop of the source,
`while (d < -M_PI) d += 2. * M_PI;`, as a well-founded recursion. -/
noncomputable def normLo (d : ℝ) : ℝ :=
  if d < -Real.pi then normLo (d + 2 * Real.pi) else d
termination_by Nat.ceil ((-Real.pi - d) / (2 * Real.pi))
decreasing_by
  have hpi : (0 : ℝ) < 2 * Real.pi := by positivity
  have hq : 0 < (-Real.pi - d) / (2 * Real.pi) := by
    apply div_pos _ hpi
    linarith
  have hrw : (-Real.pi - (d + 2 * Real.pi)) / (2 * Real.pi)
      = (-Real.pi - d) / (2 * Real.pi) - 1 := by
    field_simp
    ring
  rw [hrw]
  have h1 : 1 ≤ Nat.ceil ((-Real.pi - d) / (2 * Real.pi)) :=
    Nat.one_le_ceil_iff.mpr hq
  have h2 : Nat.ceil ((-Real.pi - d) / (2 * Real.pi) - 1)
      ≤ Nat.ceil ((-Real.pi - d) / (2 * Real.pi)) - 1 := by
    apply Nat.ceil_le.mpr
    push_cast [Nat.cast_sub h1]
    have := Nat.le_ceil ((-Real.pi - d) / (2 * Real.pi))
    linarith
  omega

/-- The angle normalization idiom of the source: both while loops in sequence
(the first loop runs to completion before the second starts). -/
noncomputable def normalizeAngle (d : ℝ) : ℝ := normLo (normHi d)

/-- Sensor type tag of MeasurementPackage.  The C++ enum holds LASER and RADAR;
UNKNOWN stands for any other value of the underlying integer type, which the
default branches of the dispatcher handle. -/
inductive SensorType where
  | LASER
  | RADAR
  | UNKNOWN

/-- One external measurement (measurement_package.h): a sensor tag, a raw value
vector (2 entries used for LASER, 3 for RADAR) and a microsecond timestamp. -/
structure MeasurementPackage where
  sensor_type_ : SensorType
  raw_measurements_ : Fin 3 → ℝ
  timestamp_ : ℤ

/-- The mutable member state of class UKF that ProcessMeasurement touches. -/
structure UKFState where
  is_initialized_ : Bool
  use_laser_ : Bool
  use_radar_ : Bool
  x_ : Fin 5 → ℝ
  P_ : Matrix (Fin 5) (Fin 5) ℝ
  Xsig_pred_ : Matrix (Fin 5) (Fin 15) ℝ
  Xsig_aug_ : Matrix (Fin 7) (Fin 15) ℝ
  Zsig_ : Matrix (Fin 3) (Fin 15) ℝ
  time_ : ℤ

/-- Result of ProcessMeasurement: either the updated member state, or the
process-level abort `exit(1)` reached on an unknown sensor tag. -/
inductive ProcOut where
  | ok (s : UKFState)
  | fatalExit (code : ℕ)

/-- Augmented mean state of UKF::AugmentedSigmaPoints:
x_aug.head(5) = x_, x_aug(5) = 0, x_aug(6) = 0. -/
noncomputable def x_aug (x : Fin 5 → ℝ) : Fin 7 → ℝ := fun i =>
  if h : (i : ℕ) < 5 then x ⟨i, h⟩ else 0

/-- Augmented covariance of UKF::AugmentedSigmaPoints: zero-filled, P_ in the
top-left 5x5 corner, std_a_^2 at (5,5) and std_yawdd_^2 at (6,6). -/
noncomputable def P_aug (P : Matrix (Fin 5) (Fin 5) ℝ) : Matrix (Fin 7) (Fin 7) ℝ :=
  fun i j =>
  if hi : (i : ℕ) < 5 then
    (if hj : (j : ℕ) < 5 then P ⟨i, hi⟩ ⟨j, hj⟩ else 0)
  else if (i : ℕ) = 5 ∧ (j : ℕ) = 5 then std_a_ * std_a_
  else if (i : ℕ) = 6 ∧ (j : ℕ) = 6 then std_yawdd_ * std_yawdd_
  else 0

/-- UKF::AugmentedSigmaPoints.  `chol` stands for the Eigen call
`P_aug.llt().matrixL()` (external library code), giving the lower Cholesky
factor L.  Column 0 is the augmented mean; column i+1 is
mean + sqrt(lambda_+n_aug_) * L.col(i) and column i+1+n_aug_ is
mean - sqrt(lambda_+n_aug_) * L.col(i), for i in 0..n_aug_-1. -/
noncomputable def AugmentedSigmaPoints
    (chol : Matrix (Fin 7) (Fin 7) ℝ → Matrix (Fin 7) (Fin 7) ℝ)
    (x : Fin 5 → ℝ) (P : Matrix (Fin 5) (Fin 5) ℝ) : Matrix (Fin 7) (Fin 15) ℝ :=
  let L := chol (P_aug P)
  fun r c =>
  if (c : ℕ) = 0 then x_aug x r
  else if hc : (c : ℕ) ≤ 7 then
    x_aug x r + Real.sqrt (lambda_ + (n_aug_ : ℝ)) * L r ⟨(c : ℕ) - 1, by omega⟩
  else
    x_aug x r - Real.sqrt (lambda_ + (n_aug_ : ℝ)) *
      L r ⟨(c : ℕ) - 1 - 7, by have := c.isLt; omega⟩

/-- Loop body of UKF::SigmaPointPrediction: CTRV propagation of one augmented
sigma point (p_x, p_y, v, yaw, yawd, nu_a, nu_yawdd) over delta_t. -/
noncomputable def ctrvProcess (pt : Fin 7 → ℝ) (delta_t : ℝ) : Fin 5 → ℝ :=
  let p_x := pt 0
  let p_y := pt 1
  let v := pt 2
  let yaw := pt 3
  let yawd := pt 4
  let nu_a := pt 5
  let nu_yawdd := pt 6
  let px_p := if |yawd| > 0.001 then
      p_x + v / yawd * (Real.sin (yaw + yawd * delta_t) - Real.sin yaw)
    else p_x + v * delta_t * Real.cos yaw
  let py_p := if |yawd| > 0.001 then
      p_y + v / yawd * (Real.cos yaw - Real.cos (yaw + yawd * delta_t))
    else p_y + v * delta_t * Real.sin yaw
  let v_p := v
  let yaw_p := yaw + yawd * delta_t
  let yawd_p := yawd
  ![px_p + 0.5 * nu_a * delta_t * delta_t * Real.cos yaw,
    py_p + 0.5 * nu_a * delta_t * delta_t * Real.sin yaw,
    v_p + nu_a * delta_t,
    yaw_p + 0.5 * nu_yawdd * delta_t * delta_t,
    yawd_p + nu_yawdd * delta_t]

/-- UKF::SigmaPointPrediction: propagate every column of Xsig_aug_. -/
noncomputable def SigmaPointPrediction (Xsig_aug : Matrix (Fin 7) (Fin 15) ℝ)
    (delta_t : ℝ) : Matrix (Fin 5) (Fin 15) ℝ :=
  fun r i => ctrvProcess (fun k => Xsig_aug k i) delta_t r

/-- Predicted state mean of UKF::PredictMeanAndCovariance:
x_ = sum over i of weights_(i) * Xsig_pred_.col(i). -/
noncomputable def predMean (Xp : Matrix (Fin 5) (Fin 15) ℝ) : Fin 5 → ℝ := fun r =>
  ∑ i : Fin 15, weights_ i * Xp r i

/-- Predicted state covariance of UKF::PredictMeanAndCovariance: the weighted
sum of outer products of the state differences, with component 3 (heading)
angle-normalized by the two while loops. -/
noncomputable def predCov (Xp : Matrix (Fin 5) (Fin 15) ℝ) :
    Matrix (Fin 5) (Fin 5) ℝ :=
  ∑ i : Fin 15, weights_ i •
    (let x_diff : Fin 5 → ℝ := fun r =>
       if r = 3 then normalizeAngle (Xp r i - predMean Xp r)
       else Xp r i - predMean Xp r
     Matrix.vecMulVec x_diff x_diff)

/-- UKF::PredictMeanAndCovariance as a pair (new x_, new P_). -/
noncomputable def PredictMeanAndCovariance (Xp : Matrix (Fin 5) (Fin 15) ℝ) :
    (Fin 5 → ℝ) × Matrix (Fin 5) (Fin 5) ℝ :=
  (predMean Xp, predCov Xp)

/-- UKF::Prediction: AugmentedSigmaPoints, then SigmaPointPrediction, then
PredictMeanAndCovariance; returns (Xsig_aug_, Xsig_pred_, x_, P_). -/
noncomputable def Prediction
    (chol : Matrix (Fin 7) (Fin 7) ℝ → Matrix (Fin 7) (Fin 7) ℝ)
    (x : Fin 5 → ℝ) (P : Matrix (Fin 5) (Fin 5) ℝ) (delta_t : ℝ) :
    Matrix (Fin 7) (Fin 15) ℝ × Matrix (Fin 5) (Fin 15) ℝ ×
      (Fin 5 → ℝ) × Matrix (Fin 5) (Fin 5) ℝ :=
  let Xa := AugmentedSigmaPoints chol x P
  let Xp := SigmaPointPrediction Xa delta_t
  (Xa, Xp, predMean Xp, predCov Xp)

/-- The C library function atan2(y, x), used by the source for the bearing. -/
noncomputable def atan2 (y x : ℝ) : ℝ :=
  if 0 < x then Real.arctan (y / x)
  else if x < 0 then
    (if 0 ≤ y then Real.arctan (y / x) + Real.pi else Real.arctan (y / x) - Real.pi)
  else (if 0 < y then Real.pi / 2 else if y < 0 then -(Real.pi / 2) else 0)

/-- Measurement-space sigma points of UKF::PredictRadarMeasurement:
row 0 is the range r, row 1 the bearing phi, row 2 the range rate r_dot. -/
noncomputable def Zsig (Xp : Matrix (Fin 5) (Fin 15) ℝ) : Matrix (Fin 3) (Fin 15) ℝ :=
  fun r i =>
  let p_x := Xp 0 i
  let p_y := Xp 1 i
  let v := Xp 2 i
  let yaw := Xp 3 i
  let v1 := Real.cos yaw * v
  let v2 := Real.sin yaw * v
  ![Real.sqrt (p_x * p_x + p_y * p_y),
    atan2 p_y p_x,
    (p_x * v1 + p_y * v2) / Real.sqrt (p_x * p_x + p_y * p_y)] r

/-- Mean predicted radar measurement of UKF::PredictRadarMeasurement. -/
noncomputable def zPred (Xp : Matrix (Fin 5) (Fin 15) ℝ) : Fin 3 → ℝ := fun r =>
  ∑ i : Fin 15, weights_ i * Zsig Xp r i

/-- Radar innovation covariance S of UKF::PredictRadarMeasurement: weighted
outer products of the residuals with the bearing component (index 1)
angle-normalized, plus the measurement noise covariance RR_. -/
noncomputable def S_radar (Xp : Matrix (Fin 5) (Fin 15) ℝ) : Matrix (Fin 3) (Fin 3) ℝ :=
  (∑ i : Fin 15, weights_ i •
    (let z_diff : Fin 3 → ℝ := fun r =>
       if r = 1 then normalizeAngle (Zsig Xp r i - zPred Xp r)
       else Zsig Xp r i - zPred Xp r
     Matrix.vecMulVec z_diff z_diff)) + RR_

/-- UKF::PredictRadarMeasurement as a pair (z_pred, S); it also stores the
measurement-space sigma points Zsig into the member Zsig_. -/
noncomputable def PredictRadarMeasurement (Xp : Matrix (Fin 5) (Fin 15) ℝ) :
    (Fin 3 → ℝ) × Matrix (Fin 3) (Fin 3) ℝ :=
  (zPred Xp, S_radar Xp)

/-- Cross-correlation matrix Tc of UKF::UpdateRadar: weighted sum of outer
products of the state difference (heading component 3 normalized) with the
measurement residual (bearing component 1 normalized). -/
noncomputable def Tc (x : Fin 5 → ℝ) (Xp : Matrix (Fin 5) (Fin 15) ℝ) :
    Matrix (Fin 5) (Fin 3) ℝ :=
  ∑ i : Fin 15, weights_ i •
    (let z_diff : Fin 3 → ℝ := fun r =>
       if r = 1 then normalizeAngle (Zsig Xp r i - zPred Xp r)
       else Zsig Xp r i - zPred Xp r
     let x_diff : Fin 5 → ℝ := fun r =>
       if r = 3 then normalizeAngle (Xp r i - x r)
       else Xp r i - x r
     Matrix.vecMulVec x_diff z_diff)

/-- UKF::UpdateRadar, as a map from the current mean, covariance, predicted
sigma points and raw measurement z to the new (x_, P_). -/
noncomputable def UpdateRadar (x : Fin 5 → ℝ) (P : Matrix (Fin 5) (Fin 5) ℝ)
    (Xp : Matrix (Fin 5) (Fin 15) ℝ) (z : Fin 3 → ℝ) :
    (Fin 5 → ℝ) × Matrix (Fin 5) (Fin 5) ℝ :=
  let z_pred := zPred Xp
  let S := S_radar Xp
  let K := Tc x Xp * S⁻¹
  let z_diff : Fin 3 → ℝ := fun r =>
    if r = 1 then normalizeAngle (z r - z_pred r) else z r - z_pred r
  (x + K.mulVec z_diff, P - K * S * K.transpose)

/-- UKF::UpdateLidar: the closed-form linear Kalman update with the fixed
observation matrix H_ and noise covariance RL_, on z = raw.head(2). -/
noncomputable def UpdateLidar (x : Fin 5 → ℝ) (P : Matrix (Fin 5) (Fin 5) ℝ)
    (z : Fin 2 → ℝ) : (Fin 5 → ℝ) × Matrix (Fin 5) (Fin 5) ℝ :=
  let z_pred := H_.mulVec x
  let y := z - z_pred
  let Ht := H_.transpose
  let S := H_ * P * Ht + RL_
  let Si := S⁻¹
  let PHt := P * Ht
  let K := PHt * Si
  (x + K.mulVec y, (1 - K * H_) * P)

/-- UKF::ProcessMeasurement.  Uninitialized: a LASER sample initializes
x_.head(2) from the raw measurement, zeroes x_.tail(3), records the timestamp,
marks the filter initialized and returns (the case falls through to
`default: return`); any other tag returns with no change.  Initialized:
compute delta_t in seconds, store the new timestamp, run Prediction, then
dispatch on the tag; a disabled sensor skips its update; an unknown tag
reaches `exit(1)`, modelled as ProcOut.fatalExit 1. -/
noncomputable def ProcessMeasurement
    (chol : Matrix (Fin 7) (Fin 7) ℝ → Matrix (Fin 7) (Fin 7) ℝ)
    (s : UKFState) (m : MeasurementPackage) : ProcOut :=
  if s.is_initialized_ = false then
    match m.sensor_type_ with
    | SensorType.LASER =>
        ProcOut.ok { s with
          x_ := fun i =>
            if h : (i : ℕ) < 2 then m.raw_measurements_ ⟨(i : ℕ), by omega⟩ else 0,
          time_ := m.timestamp_,
          is_initialized_ := true }
    | _ => ProcOut.ok s
  else
    let delta_t : ℝ := ((m.timestamp_ - s.time_ : ℤ) : ℝ) / 1.0e6
    let pr := Prediction chol s.x_ s.P_ delta_t
    let s1 : UKFState :=
      { s with
        time_ := m.timestamp_,
        Xsig_aug_ := pr.1, Xsig_pred_ := pr.2.1, x_ := pr.2.2.1, P_ := pr.2.2.2 }
    match m.sensor_type_ with
    | SensorType.LASER =>
        ProcOut.ok (if s1.use_laser_ then
          let res := UpdateLidar s1.x_ s1.P_
            (fun j => m.raw_measurements_ (Fin.castLE (by omega) j))
          { s1 with x_ := res.1, P_ := res.2 }
        else s1)
    | SensorType.RADAR =>
        ProcOut.ok (if s1.use_radar_ then
          let res := UpdateRadar s1.x_ s1.P_ s1.Xsig_pred_ m.raw_measurements_
          { s1 with Zsig_ := Zsig s1.Xsig_pred_, x_ := res.1, P_ := res.2 }
        else s1)
    | SensorType.UNKNOWN => ProcOut.fatalExit 1

/-- A concrete member state used to instantiate theorems that carry
hypotheses: the sensor flags of a freshly constructed UKF and zero-filled
numeric buffers. -/
noncomputable def sampleState : UKFState :=
  { is_initialized_ := false, use_laser_ := true, use_radar_ := true,
    x_ := fun _ => 0, P_ := fun _ _ => 0, Xsig_pred_ := fun _ _ => 0,
    Xsig_aug_ := fun _ _ => 0, Zsig_ := fun _ _ => 0, time_ := 0 }

theorem normHi_le (d : ℝ) : normHi d ≤ Real.pi := by
  induction d using normHi.induct with
  | case1 d h ih => rw [normHi, if_pos h]; exact ih
  | case2 d h => rw [normHi, if_neg h]; linarith [not_lt.mp h]

theorem normLo_ge (d : ℝ) : -Real.pi ≤ normLo d := by
  induction d using normLo.induct with
  | case1 d h ih => rw [normLo, if_pos h]; exact ih
  | case2 d h => rw [normLo, if_neg h]; linarith [not_lt.mp h]

theorem normLo_le (d : ℝ) (hd : d ≤ Real.pi) : normLo d ≤ Real.pi := by
  induction d using normLo.induct with
  | case1 d h ih =>
      rw [normLo, if_pos h]
      apply ih
      have hpi : (0 : ℝ) < Real.pi := Real.pi_pos
      linarith
  | case2 d h => rw [normLo, if_neg h]; exact hd

theorem normalizeAngle_mem_Icc (d : ℝ) :
    normalizeAngle d ∈ Set.Icc (-Real.pi) Real.pi := by
  constructor
  · exact normLo_ge (normHi d)
  · exact normLo_le (normHi d) (normHi_le d)

theorem Xsig_aug_col_zero
    (chol : Matrix (Fin 7) (Fin 7) ℝ → Matrix (Fin 7) (Fin 7) ℝ)
    (x : Fin 5 → ℝ) (P : Matrix (Fin 5) (Fin 5) ℝ) (r : Fin 7) :
    AugmentedSigmaPoints chol x P r 0 = x_aug x r := by
  simp [AugmentedSigmaPoints]

theorem Xsig_aug_col_plus
    (chol : Matrix (Fin 7) (Fin 7) ℝ → Matrix (Fin 7) (Fin 7) ℝ)
    (x : Fin 5 → ℝ) (P : Matrix (Fin 5) (Fin 5) ℝ) (i : Fin 7) (r : Fin 7) :
    AugmentedSigmaPoints chol x P r ⟨(i : ℕ) + 1, by have := i.isLt; omega⟩ =
      x_aug x r + Real.sqrt (lambda_ + (n_aug_ : ℝ)) * chol (P_aug P) r i := by
  have hi := i.isLt
  simp only [AugmentedSigmaPoints]
  rw [if_neg (by omega), dif_pos (by omega)]
  simp only [Nat.add_sub_cancel, Fin.eta]

theorem Xsig_aug_col_minus
    (chol : Matrix (Fin 7) (Fin 7) ℝ → Matrix (Fin 7) (Fin 7) ℝ)
    (x : Fin 5 → ℝ) (P : Matrix (Fin 5) (Fin 5) ℝ) (i : Fin 7) (r : Fin 7) :
    AugmentedSigmaPoints chol x P r ⟨(i : ℕ) + 1 + n_aug_, by have := i.isLt; simp only [n_aug_]; omega⟩ =
      x_aug x r - Real.sqrt (lambda_ + (n_aug_ : ℝ)) * chol (P_aug P) r i := by
  have hi := i.isLt
  simp only [AugmentedSigmaPoints, n_aug_]
  rw [if_neg (by omega), dif_neg (by omega)]
  have hv : (i : ℕ) + 1 + 7 - 1 - 7 = (i : ℕ) := by omega
  simp only [hv, Fin.eta]

/-- C1: sigma-point generation builds the 7-dimensional augmented mean (x_
with two appended zeros) and the 7x7 augmented covariance (P_ in the top-left
block, std_a_^2 and std_yawdd_^2 on the added diagonal), sets point 0 to the
augmented mean, sets point i+1 = mean + sqrt(lambda_+n_aug_) * L.col(i) and
point i+1+n_aug_ = mean - sqrt(lambda_+n_aug_) * L.col(i) for i in
0..n_aug_-1, with lambda_ = 3 - n_x_ = -2; hence point i+1 and point
i+1+n_aug_ are exact reflections of the augmented mean along the same
Cholesky column. -/
theorem C1_sigma_point_generation
    (chol : Matrix (Fin 7) (Fin 7) ℝ → Matrix (Fin 7) (Fin 7) ℝ)
    (x : Fin 5 → ℝ) (P : Matrix (Fin 5) (Fin 5) ℝ) :
    (∀ i : Fin 5, x_aug x (Fin.castLE (by omega) i) = x i) ∧
    x_aug x ⟨5, by omega⟩ = 0 ∧ x_aug x ⟨6, by omega⟩ = 0 ∧
    (∀ i j : Fin 5,
      P_aug P (Fin.castLE (by omega) i) (Fin.castLE (by omega) j) = P i j) ∧
    P_aug P ⟨5, by omega⟩ ⟨5, by omega⟩ = std_a_ * std_a_ ∧
    P_aug P ⟨6, by omega⟩ ⟨6, by omega⟩ = std_yawdd_ * std_yawdd_ ∧
    lambda_ = 3 - (n_x_ : ℝ) ∧ lambda_ = -2 ∧
    (∀ r : Fin 7, AugmentedSigmaPoints chol x P r 0 = x_aug x r) ∧
    (∀ (i : Fin 7) (r : Fin 7),
      AugmentedSigmaPoints chol x P r ⟨(i : ℕ) + 1, by have := i.isLt; omega⟩ =
        x_aug x r + Real.sqrt (lambda_ + (n_aug_ : ℝ)) * chol (P_aug P) r i ∧
      AugmentedSigmaPoints chol x P r ⟨(i : ℕ) + 1 + n_aug_, by have := i.isLt; simp only [n_aug_]; omega⟩ =
        x_aug x r - Real.sqrt (lambda_ + (n_aug_ : ℝ)) * chol (P_aug P) r i) ∧
    (∀ (i : Fin 7) (r : Fin 7),
      AugmentedSigmaPoints chol x P r ⟨(i : ℕ) + 1, by have := i.isLt; omega⟩
          - x_aug x r =
        -(AugmentedSigmaPoints chol x P r
            ⟨(i : ℕ) + 1 + n_aug_, by have := i.isLt; simp only [n_aug_]; omega⟩ - x_aug x r)) := by
  refine ⟨fun i => ?_, ?_, ?_, fun i j => ?_, ?_, ?_,
    ?_, ?_, Xsig_aug_col_zero chol x P,
    fun i r => ⟨Xsig_aug_col_plus chol x P i r, Xsig_aug_col_minus chol x P i r⟩,
    fun i r => ?_⟩
  · simp [x_aug, i.isLt]
  · simp [x_aug]
  · simp [x_aug]
  · simp [P_aug, i.isLt, j.isLt]
  · simp [P_aug]
  · simp [P_aug]
  · norm_num [lambda_, n_x_]
  · norm_num [lambda_, n_x_]
  · rw [Xsig_aug_col_plus chol x P i r, Xsig_aug_col_minus chol x P i r]
    ring

/-- C2: the CTRV propagation of one augmented sigma point uses the curved-path
formulas exactly when |yawd| > 1e-3 and the straight-line formulas otherwise;
the deterministic part carries speed and yaw-rate forward unchanged and
advances heading by yawd*delta_t; the noise terms add
0.5*nu_a*dt^2*cos(yaw) and 0.5*nu_a*dt^2*sin(yaw) to position, nu_a*dt to
speed, 0.5*nu_yawdd*dt^2 to heading, and nu_yawdd*dt to yaw-rate. -/
theorem C2_ctrv_propagation (pt : Fin 7 → ℝ) (dt : ℝ) :
    ctrvProcess pt dt 0 =
      (if |pt 4| > 0.001 then
        pt 0 + pt 2 / pt 4 * (Real.sin (pt 3 + pt 4 * dt) - Real.sin (pt 3))
      else pt 0 + pt 2 * dt * Real.cos (pt 3))
      + 0.5 * pt 5 * dt * dt * Real.cos (pt 3) ∧
    ctrvProcess pt dt 1 =
      (if |pt 4| > 0.001 then
        pt 1 + pt 2 / pt 4 * (Real.cos (pt 3) - Real.cos (pt 3 + pt 4 * dt))
      else pt 1 + pt 2 * dt * Real.sin (pt 3))
      + 0.5 * pt 5 * dt * dt * Real.sin (pt 3) ∧
    ctrvProcess pt dt 2 = pt 2 + pt 5 * dt ∧
    ctrvProcess pt dt 3 = pt 3 + pt 4 * dt + 0.5 * pt 6 * dt * dt ∧
    ctrvProcess pt dt 4 = pt 4 + pt 6 * dt := by
  refine ⟨?_, ?_, ?_, ?_, ?_⟩ <;>
    simp [ctrvProcess, Matrix.cons_val_zero, Matrix.cons_val_one,
      Matrix.cons_val_two, Matrix.cons_val_three, Matrix.cons_val_four,
      Matrix.head_cons, Matrix.vecHead, Matrix.vecTail]

theorem ctrvProcess_zero (pt : Fin 7 → ℝ) (r : Fin 5) :
    ctrvProcess pt 0 r = pt (Fin.castLE (by omega) r) := by
  fin_cases r <;>
    simp [ctrvProcess, Matrix.cons_val_zero, Matrix.cons_val_one,
      Matrix.cons_val_two, Matrix.cons_val_three, Matrix.cons_val_four,
      Matrix.head_cons, Matrix.vecHead, Matrix.vecTail, Fin.castLE]

/-- C9: running the prediction step with delta_t = 0 leaves the predicted mean
equal to the pre-prediction mean (exactly, over the reals): each sigma point
propagates to its own first five components, and the weighted recombination of
the symmetric point set recovers the original mean because the reflection
terms cancel and the weights sum to 1. -/
theorem C9_zero_dt_mean
    (chol : Matrix (Fin 7) (Fin 7) ℝ → Matrix (Fin 7) (Fin 7) ℝ)
    (x : Fin 5 → ℝ) (P : Matrix (Fin 5) (Fin 5) ℝ) :
    (∀ (r : Fin 5) (i : Fin 15),
      (Prediction chol x P 0).2.1 r i =
        (Prediction chol x P 0).1 (Fin.castLE (by omega) r) i) ∧
    (Prediction chol x P 0).2.2.1 = x := by
  constructor
  · intro r i
    simp only [Prediction, SigmaPointPrediction]
    exact ctrvProcess_zero _ r
  · funext r
    simp only [Prediction, predMean, SigmaPointPrediction]
    have hs : (∑ i : Fin 15,
          weights_ i * ctrvProcess (fun k => AugmentedSigmaPoints chol x P k i) 0 r)
        = ∑ i : Fin 15,
          weights_ i * AugmentedSigmaPoints chol x P (Fin.castLE (by omega) r) i := by
      refine Finset.sum_congr rfl fun i _ => ?_
      rw [ctrvProcess_zero]
    rw [hs]
    rw [Fin.sum_univ_succ]
    rw [Fin.sum_univ_add (fun i : Fin (7 + 7) =>
      weights_ i.succ *
        AugmentedSigmaPoints chol x P (Fin.castLE (by omega) r) i.succ)]
    have hw : ∀ c : Fin 15, c ≠ 0 → weights_ c = 0.5 / (lambda_ + (n_aug_ : ℝ)) := by
      intro c hc
      simp [weights_, hc]
    have hplus : (∑ i : Fin 7,
        weights_ (Fin.castAdd 7 i).succ *
          AugmentedSigmaPoints chol x P (Fin.castLE (by omega) r)
            (Fin.castAdd 7 i).succ)
        = ∑ i : Fin 7, 0.5 / (lambda_ + (n_aug_ : ℝ)) *
            (x_aug x (Fin.castLE (by omega) r) +
              Real.sqrt (lambda_ + (n_aug_ : ℝ)) *
                chol (P_aug P) (Fin.castLE (by omega) r) i) := by
      refine Finset.sum_congr rfl fun i _ => ?_
      have hidx : (Fin.castAdd 7 i).succ
          = (⟨(i : ℕ) + 1, by have := i.isLt; omega⟩ : Fin 15) := by
        apply Fin.ext
        simp
      rw [hidx, hw _ (by simp [Fin.ext_iff]), Xsig_aug_col_plus]
    have hminus : (∑ i : Fin 7,
        weights_ (Fin.natAdd 7 i).succ *
          AugmentedSigmaPoints chol x P (Fin.castLE (by omega) r)
            (Fin.natAdd 7 i).succ)
        = ∑ i : Fin 7, 0.5 / (lambda_ + (n_aug_ : ℝ)) *
            (x_aug x (Fin.castLE (by omega) r) -
              Real.sqrt (lambda_ + (n_aug_ : ℝ)) *
                chol (P_aug P) (Fin.castLE (by omega) r) i) := by
      refine Finset.sum_congr rfl fun i _ => ?_
      have hidx : (Fin.natAdd 7 i).succ
          = (⟨(i : ℕ) + 1 + n_aug_, by
              have := i.isLt; simp only [n_aug_]; omega⟩ : Fin 15) := by
        apply Fin.ext
        simp [n_aug_]
        try omega
      rw [hidx, hw _ (by simp [Fin.ext_iff]), Xsig_aug_col_minus]
    rw [hplus, hminus, Xsig_aug_col_zero, ← Finset.sum_add_distrib]
    have hcomb : (∑ i : Fin 7,
        (0.5 / (lambda_ + (n_aug_ : ℝ)) *
            (x_aug x (Fin.castLE (by omega) r) +
              Real.sqrt (lambda_ + (n_aug_ : ℝ)) *
                chol (P_aug P) (Fin.castLE (by omega) r) i) +
         0.5 / (lambda_ + (n_aug_ : ℝ)) *
            (x_aug x (Fin.castLE (by omega) r) -
              Real.sqrt (lambda_ + (n_aug_ : ℝ)) *
                chol (P_aug P) (Fin.castLE (by omega) r) i)))
        = ∑ _i : Fin 7,
            1 / (lambda_ + (n_aug_ : ℝ)) * x_aug x (Fin.castLE (by omega) r) := by
      refine Finset.sum_congr rfl fun i _ => ?_
      ring
    rw [hcomb, Finset.sum_const, Finset.card_univ, Fintype.card_fin]
    have hxa : x_aug x (Fin.castLE (by omega) r) = x r := by
      simp [x_aug, Fin.is_lt]
    rw [hxa]
    have hw0 : weights_ 0 = lambda_ / (lambda_ + (n_aug_ : ℝ)) := by
      simp [weights_]
    rw [hw0, nsmul_eq_mul]
    norm_num [lambda_, n_x_, n_aug_]
    ring_nf

/-- C3 counterexample: the claim puts every normalized angle difference in the
half-open interval (-pi, pi], but the two while loops leave an input of
exactly -pi unchanged: at the radar residual site, a raw bearing of -pi
against a predicted measurement mean of 0 (obtained from the all-zero
predicted sigma-point set) yields a normalized residual of -pi, which is not
in (-pi, pi]. -/
theorem C3_counterexample :
    ¬ (normalizeAngle ((fun _ : Fin 3 => -Real.pi) 1
          - zPred (fun _ _ => 0) 1) ∈ Set.Ioc (-Real.pi) Real.pi) := by
  have hz : zPred (fun _ _ => (0 : ℝ)) 1 = 0 := by
    simp [zPred, Zsig, atan2, Matrix.cons_val_one, Matrix.head_cons,
      Matrix.vecHead, Matrix.vecTail]
  have h1 : normHi (-Real.pi) = -Real.pi := by
    rw [normHi, if_neg (by linarith [Real.pi_pos])]
  have h2 : normLo (-Real.pi) = -Real.pi := by
    rw [normLo, if_neg (lt_irrefl _)]
  simp only [hz, sub_zero, normalizeAngle, h1, h2, Set.mem_Ioc]
  intro hcon
  exact absurd hcon.1 (lt_irrefl _)

/-- C3 (amended): every heading or bearing difference used in the
predicted-covariance recombination, the radar cross-correlation, the radar
innovation covariance and the radar measurement residual is, after the
normalization step, a value of magnitude at most pi — i.e. in the closed
interval [-pi, pi] (the value -pi itself is reachable, so the interval is
closed, not half-open). -/
theorem C3_normalized_angle_bounds (x : Fin 5 → ℝ)
    (Xp : Matrix (Fin 5) (Fin 15) ℝ) (z : Fin 3 → ℝ) (i : Fin 15) :
    |normalizeAngle (Xp 3 i - predMean Xp 3)| ≤ Real.pi ∧
    |normalizeAngle (Xp 3 i - x 3)| ≤ Real.pi ∧
    |normalizeAngle (Zsig Xp 1 i - zPred Xp 1)| ≤ Real.pi ∧
    |normalizeAngle (z 1 - zPred Xp 1)| ≤ Real.pi := by
  refine ⟨?_, ?_, ?_, ?_⟩ <;>
    exact abs_le.mpr (normalizeAngle_mem_Icc _)

/-- C5: the lidar update computes exactly the closed-form linear Kalman
equations with the fixed 2x5 observation matrix H_ and the fixed noise
covariance RL_ = diag(0.15^2, 0.15^2): residual y = z - H_*x, innovation
covariance S = H_*P*H_^T + RL_, gain K = P*H_^T*S^(-1), new mean x + K*y, new
covariance (I - K*H_)*P; no angle normalization appears in any term. -/
theorem C5_lidar_update (x : Fin 5 → ℝ) (P : Matrix (Fin 5) (Fin 5) ℝ)
    (z : Fin 2 → ℝ) :
    H_ = !![1, 0, 0, 0, 0; 0, 1, 0, 0, 0] ∧
    RL_ = !![(0.15 : ℝ) ^ 2, 0; 0, (0.15 : ℝ) ^ 2] ∧
    (UpdateLidar x P z).1
      = x + (P * H_.transpose * (H_ * P * H_.transpose + RL_)⁻¹).mulVec
          (z - H_.mulVec x) ∧
    (UpdateLidar x P z).2
      = (1 - P * H_.transpose * (H_ * P * H_.transpose + RL_)⁻¹ * H_) * P := by
  refine ⟨rfl, ?_, rfl, rfl⟩
  ext i j
  fin_cases i <;> fin_cases j <;>
    norm_num [RL_, std_laspx_, std_laspy_, Matrix.cons_val_zero,
      Matrix.cons_val_one, Matrix.head_cons, Matrix.vecHead, Matrix.vecTail]

/-- C4: the radar update (1) maps each predicted sigma point into measurement
space by range = sqrt(p_x^2+p_y^2), bearing = atan2(p_y, p_x), range-rate =
(p_x*v*cos(yaw) + p_y*v*sin(yaw))/range, (2) recombines these with the fixed
weights into the predicted measurement mean zPred and the innovation
covariance S (bearing differences normalized) and adds the fixed radar noise
covariance RR_ to S, and (3) sets gain K = Tc * S^(-1), takes the residual
z - zPred with bearing component normalized, then sets the mean to
x + K*residual and the covariance to P - K*S*K^T. -/
theorem C4_radar_update (x : Fin 5 → ℝ) (P : Matrix (Fin 5) (Fin 5) ℝ)
    (Xp : Matrix (Fin 5) (Fin 15) ℝ) (z : Fin 3 → ℝ) :
    (∀ i : Fin 15,
      Zsig Xp 0 i = Real.sqrt (Xp 0 i * Xp 0 i + Xp 1 i * Xp 1 i) ∧
      Zsig Xp 1 i = atan2 (Xp 1 i) (Xp 0 i) ∧
      Zsig Xp 2 i = (Xp 0 i * (Real.cos (Xp 3 i) * Xp 2 i)
          + Xp 1 i * (Real.sin (Xp 3 i) * Xp 2 i))
        / Real.sqrt (Xp 0 i * Xp 0 i + Xp 1 i * Xp 1 i)) ∧
    (∀ r : Fin 3, zPred Xp r = ∑ i : Fin 15, weights_ i * Zsig Xp r i) ∧
    S_radar Xp = (∑ i : Fin 15, weights_ i •
        Matrix.vecMulVec
          (fun r => if r = 1 then normalizeAngle (Zsig Xp r i - zPred Xp r)
                    else Zsig Xp r i - zPred Xp r)
          (fun r => if r = 1 then normalizeAngle (Zsig Xp r i - zPred Xp r)
                    else Zsig Xp r i - zPred Xp r)) + RR_ ∧
    RR_ = !![(0.3 : ℝ) ^ 2, 0, 0; 0, (0.03 : ℝ) ^ 2, 0; 0, 0, (0.3 : ℝ) ^ 2] ∧
    (UpdateRadar x P Xp z).1
      = x + (Tc x Xp * (S_radar Xp)⁻¹).mulVec
          (fun r => if r = 1 then normalizeAngle (z r - zPred Xp r)
                    else z r - zPred Xp r) ∧
    (UpdateRadar x P Xp z).2
      = P - Tc x Xp * (S_radar Xp)⁻¹ * S_radar Xp *
          (Tc x Xp * (S_radar Xp)⁻¹).transpose := by
  refine ⟨fun i => ⟨rfl, rfl, rfl⟩, fun r => rfl, rfl, ?_, rfl, rfl⟩
  ext i j
  fin_cases i <;> fin_cases j <;>
    norm_num [RR_, std_radr_, std_radphi_, std_radrd_, Matrix.cons_val_zero,
      Matrix.cons_val_one, Matrix.cons_val_two, Matrix.head_cons,
      Matrix.vecHead, Matrix.vecTail]

/-- C10: the radar measurement-space transform divides by
range = sqrt(p_x^2 + p_y^2) with no guard; whenever a predicted sigma point
satisfies (p_x, p_y) ≠ (0, 0) the divisor is nonzero and the range-rate entry
is a well-defined division (multiplying it back by the divisor recovers the
numerator p_x*v*cos(yaw) + p_y*v*sin(yaw)). -/
theorem C10_range_rate_division (Xp : Matrix (Fin 5) (Fin 15) ℝ) (i : Fin 15)
    (h : ¬ (Xp 0 i = 0 ∧ Xp 1 i = 0)) :
    Real.sqrt (Xp 0 i * Xp 0 i + Xp 1 i * Xp 1 i) ≠ 0 ∧
    Zsig Xp 2 i * Real.sqrt (Xp 0 i * Xp 0 i + Xp 1 i * Xp 1 i)
      = Xp 0 i * (Real.cos (Xp 3 i) * Xp 2 i)
        + Xp 1 i * (Real.sin (Xp 3 i) * Xp 2 i) := by
  have hpos : 0 < Xp 0 i * Xp 0 i + Xp 1 i * Xp 1 i := by
    rcases not_and_or.mp h with h0 | h1
    · nlinarith [mul_self_pos.mpr h0, mul_self_nonneg (Xp 1 i)]
    · nlinarith [mul_self_pos.mpr h1, mul_self_nonneg (Xp 0 i)]
  have hne : Real.sqrt (Xp 0 i * Xp 0 i + Xp 1 i * Xp 1 i) ≠ 0 :=
    ne_of_gt (Real.sqrt_pos.mpr hpos)
  refine ⟨hne, ?_⟩
  have hz : Zsig Xp 2 i = (Xp 0 i * (Real.cos (Xp 3 i) * Xp 2 i)
      + Xp 1 i * (Real.sin (Xp 3 i) * Xp 2 i))
      / Real.sqrt (Xp 0 i * Xp 0 i + Xp 1 i * Xp 1 i) := rfl
  rw [hz, div_mul_cancel₀ _ hne]

/-- Witness for C10 at the concrete all-ones predicted sigma-point set: the
point (1, 1) is away from the origin and the division is well defined. -/
theorem C10_witness :
    ¬ (((fun _ _ => (1 : ℝ)) : Matrix (Fin 5) (Fin 15) ℝ) 0 0 = 0 ∧
        ((fun _ _ => (1 : ℝ)) : Matrix (Fin 5) (Fin 15) ℝ) 1 0 = 0) ∧
    (Real.sqrt (((fun _ _ => (1 : ℝ)) : Matrix (Fin 5) (Fin 15) ℝ) 0 0 *
          ((fun _ _ => (1 : ℝ)) : Matrix (Fin 5) (Fin 15) ℝ) 0 0 +
        ((fun _ _ => (1 : ℝ)) : Matrix (Fin 5) (Fin 15) ℝ) 1 0 *
          ((fun _ _ => (1 : ℝ)) : Matrix (Fin 5) (Fin 15) ℝ) 1 0) ≠ 0 ∧
      Zsig ((fun _ _ => (1 : ℝ)) : Matrix (Fin 5) (Fin 15) ℝ) 2 0 *
          Real.sqrt (((fun _ _ => (1 : ℝ)) : Matrix (Fin 5) (Fin 15) ℝ) 0 0 *
              ((fun _ _ => (1 : ℝ)) : Matrix (Fin 5) (Fin 15) ℝ) 0 0 +
            ((fun _ _ => (1 : ℝ)) : Matrix (Fin 5) (Fin 15) ℝ) 1 0 *
              ((fun _ _ => (1 : ℝ)) : Matrix (Fin 5) (Fin 15) ℝ) 1 0)
        = ((fun _ _ => (1 : ℝ)) : Matrix (Fin 5) (Fin 15) ℝ) 0 0 *
            (Real.cos (((fun _ _ => (1 : ℝ)) : Matrix (Fin 5) (Fin 15) ℝ) 3 0) *
              ((fun _ _ => (1 : ℝ)) : Matrix (Fin 5) (Fin 15) ℝ) 2 0)
          + ((fun _ _ => (1 : ℝ)) : Matrix (Fin 5) (Fin 15) ℝ) 1 0 *
            (Real.sin (((fun _ _ => (1 : ℝ)) : Matrix (Fin 5) (Fin 15) ℝ) 3 0) *
              ((fun _ _ => (1 : ℝ)) : Matrix (Fin 5) (Fin 15) ℝ) 2 0)) :=
  ⟨by norm_num, C10_range_rate_division (fun _ _ => (1 : ℝ)) 0 (by norm_num)⟩

/-- C6: on an uninitialized filter, ProcessMeasurement initializes if and only
if the sensor tag of the sample is LASER: it sets the two position fields of the
mean from the raw measurement, zeroes the speed, heading and yaw-rate fields,
records the timestamp, and marks the filter ready; any other first sample is a
no-op that changes no state, raises no error, and leaves the filter
uninitialized. -/
theorem C6_initialization
    (chol : Matrix (Fin 7) (Fin 7) ℝ → Matrix (Fin 7) (Fin 7) ℝ)
    (s : UKFState) (m : MeasurementPackage)
    (h : s.is_initialized_ = false) :
    (m.sensor_type_ = SensorType.LASER →
      ProcessMeasurement chol s m = ProcOut.ok
        { s with
          x_ := ![m.raw_measurements_ 0, m.raw_measurements_ 1, 0, 0, 0],
          time_ := m.timestamp_,
          is_initialized_ := true }) ∧
    (m.sensor_type_ ≠ SensorType.LASER →
      ProcessMeasurement chol s m = ProcOut.ok s) := by
  constructor
  · intro ht
    have hx : (fun i : Fin 5 =>
        if h2 : (i : ℕ) < 2 then m.raw_measurements_ ⟨(i : ℕ), by omega⟩ else 0)
        = ![m.raw_measurements_ 0, m.raw_measurements_ 1, 0, 0, 0] := by
      funext i
      fin_cases i <;>
        simp [Matrix.cons_val_zero, Matrix.cons_val_one, Matrix.cons_val_two,
          Matrix.cons_val_three, Matrix.cons_val_four, Matrix.head_cons,
          Matrix.vecHead, Matrix.vecTail]
    simp only [ProcessMeasurement, h, ht, if_pos]
    rw [hx]
  · intro ht
    cases hm : m.sensor_type_ with
    | LASER => exact absurd hm ht
    | RADAR => simp [ProcessMeasurement, h, hm]
    | UNKNOWN => simp [ProcessMeasurement, h, hm]

/-- Witness for C6: a RADAR-first sample on the concrete uninitialized
sampleState leaves the state untouched and the filter uninitialized. -/
theorem C6_witness :
    sampleState.is_initialized_ = false ∧
    (((⟨SensorType.RADAR, fun _ => 1, 5⟩ : MeasurementPackage).sensor_type_
        = SensorType.LASER →
      ProcessMeasurement (fun M => M) sampleState
          ⟨SensorType.RADAR, fun _ => 1, 5⟩ = ProcOut.ok
        { sampleState with
          x_ := ![(⟨SensorType.RADAR, fun _ => 1, 5⟩ :
              MeasurementPackage).raw_measurements_ 0,
            (⟨SensorType.RADAR, fun _ => 1, 5⟩ :
              MeasurementPackage).raw_measurements_ 1, 0, 0, 0],
          time_ := (⟨SensorType.RADAR, fun _ => 1, 5⟩ :
              MeasurementPackage).timestamp_,
          is_initialized_ := true }) ∧
    ((⟨SensorType.RADAR, fun _ => 1, 5⟩ : MeasurementPackage).sensor_type_
        ≠ SensorType.LASER →
      ProcessMeasurement (fun M => M) sampleState
          ⟨SensorType.RADAR, fun _ => 1, 5⟩ = ProcOut.ok sampleState)) :=
  ⟨rfl, C6_initialization (fun M => M) sampleState
    ⟨SensorType.RADAR, fun _ => 1, 5⟩ rfl⟩

/-- C7 counterexample: the claim says an unrecognized sensor tag aborts the
process regardless of initialization, but on an uninitialized filter the
`default: return` branch of the first switch is reached instead: the call is a silent
no-op, not an abort. -/
theorem C7_counterexample :
    ProcessMeasurement (fun M => M) sampleState
        ⟨SensorType.UNKNOWN, fun _ => 0, 0⟩ = ProcOut.ok sampleState ∧
    ProcessMeasurement (fun M => M) sampleState
        ⟨SensorType.UNKNOWN, fun _ => 0, 0⟩ ≠ ProcOut.fatalExit 1 := by
  have h1 : ProcessMeasurement (fun M => M) sampleState
      ⟨SensorType.UNKNOWN, fun _ => 0, 0⟩ = ProcOut.ok sampleState := by
    simp [ProcessMeasurement, sampleState]
  refine ⟨h1, ?_⟩
  rw [h1]
  intro hcon
  exact ProcOut.noConfusion hcon

/-- C7 (amended): an unrecognized sensor tag reaches `exit(1)` — a fatal
process-level abort, not an error returned to the caller — exactly when the
filter is already initialized; on an uninitialized filter the same tag is a
silent no-op. -/
theorem C7_unknown_tag_fatal
    (chol : Matrix (Fin 7) (Fin 7) ℝ → Matrix (Fin 7) (Fin 7) ℝ)
    (s : UKFState) (m : MeasurementPackage)
    (hm : m.sensor_type_ = SensorType.UNKNOWN) :
    (s.is_initialized_ = true →
      ProcessMeasurement chol s m = ProcOut.fatalExit 1) ∧
    (s.is_initialized_ = false →
      ProcessMeasurement chol s m = ProcOut.ok s) := by
  constructor <;> intro h <;> simp [ProcessMeasurement, h, hm]

/-- Witness for C7 (amended) on a concrete initialized state and a concrete
uninitialized state. -/
theorem C7_witness :
    (⟨SensorType.UNKNOWN, fun _ => 0, 7⟩ : MeasurementPackage).sensor_type_
        = SensorType.UNKNOWN ∧
    (({ sampleState with is_initialized_ := true } : UKFState).is_initialized_
        = true →
      ProcessMeasurement (fun M => M) { sampleState with is_initialized_ := true }
          ⟨SensorType.UNKNOWN, fun _ => 0, 7⟩ = ProcOut.fatalExit 1) ∧
    (({ sampleState with is_initialized_ := true } : UKFState).is_initialized_
        = false →
      ProcessMeasurement (fun M => M) { sampleState with is_initialized_ := true }
          ⟨SensorType.UNKNOWN, fun _ => 0, 7⟩ = ProcOut.ok
        { sampleState with is_initialized_ := true }) :=
  ⟨rfl, C7_unknown_tag_fatal (fun M => M)
    { sampleState with is_initialized_ := true }
    ⟨SensorType.UNKNOWN, fun _ => 0, 7⟩ rfl⟩

/-- C8: on an initialized filter with the radar sensor disabled, a RADAR
sample still advances the stored timestamp and still runs the full prediction
step, and the resulting mean, covariance and sigma-point buffers are exactly
the predicted values, with no measurement update applied; symmetrically for a
LASER sample with the lidar sensor disabled. -/
theorem C8_disabled_sensor_skips_update
    (chol : Matrix (Fin 7) (Fin 7) ℝ → Matrix (Fin 7) (Fin 7) ℝ)
    (s : UKFState) (m : MeasurementPackage)
    (h : s.is_initialized_ = true) :
    (m.sensor_type_ = SensorType.RADAR → s.use_radar_ = false →
      ProcessMeasurement chol s m = ProcOut.ok
        { s with
          time_ := m.timestamp_,
          Xsig_aug_ := (Prediction chol s.x_ s.P_
            (((m.timestamp_ - s.time_ : ℤ) : ℝ) / 1.0e6)).1,
          Xsig_pred_ := (Prediction chol s.x_ s.P_
            (((m.timestamp_ - s.time_ : ℤ) : ℝ) / 1.0e6)).2.1,
          x_ := (Prediction chol s.x_ s.P_
            (((m.timestamp_ - s.time_ : ℤ) : ℝ) / 1.0e6)).2.2.1,
          P_ := (Prediction chol s.x_ s.P_
            (((m.timestamp_ - s.time_ : ℤ) : ℝ) / 1.0e6)).2.2.2 }) ∧
    (m.sensor_type_ = SensorType.LASER → s.use_laser_ = false →
      ProcessMeasurement chol s m = ProcOut.ok
        { s with
          time_ := m.timestamp_,
          Xsig_aug_ := (Prediction chol s.x_ s.P_
            (((m.timestamp_ - s.time_ : ℤ) : ℝ) / 1.0e6)).1,
          Xsig_pred_ := (Prediction chol s.x_ s.P_
            (((m.timestamp_ - s.time_ : ℤ) : ℝ) / 1.0e6)).2.1,
          x_ := (Prediction chol s.x_ s.P_
            (((m.timestamp_ - s.time_ : ℤ) : ℝ) / 1.0e6)).2.2.1,
          P_ := (Prediction chol s.x_ s.P_
            (((m.timestamp_ - s.time_ : ℤ) : ℝ) / 1.0e6)).2.2.2 }) := by
  constructor <;> intro hm hflag <;> simp [ProcessMeasurement, h, hm, hflag]

/-- Witness for C8: a RADAR sample on a concrete initialized state with
use_radar_ disabled yields exactly the predicted state. -/
theorem C8_witness :
    ({ sampleState with is_initialized_ := true, use_radar_ := false }
        : UKFState).is_initialized_ = true ∧
    ((⟨SensorType.RADAR, fun _ => 1, 3⟩ : MeasurementPackage).sensor_type_
        = SensorType.RADAR →
     ({ sampleState with is_initialized_ := true, use_radar_ := false }
        : UKFState).use_radar_ = false →
      ProcessMeasurement (fun M => M)
          { sampleState with is_initialized_ := true, use_radar_ := false }
          ⟨SensorType.RADAR, fun _ => 1, 3⟩ = ProcOut.ok
        { ({ sampleState with is_initialized_ := true, use_radar_ := false }
            : UKFState) with
          time_ := (⟨SensorType.RADAR, fun _ => 1, 3⟩ :
              MeasurementPackage).timestamp_,
          Xsig_aug_ := (Prediction (fun M => M)
            ({ sampleState with is_initialized_ := true, use_radar_ := false }
              : UKFState).x_
            ({ sampleState with is_initialized_ := true, use_radar_ := false }
              : UKFState).P_
            ((((⟨SensorType.RADAR, fun _ => 1, 3⟩ :
                  MeasurementPackage).timestamp_ -
               ({ sampleState with is_initialized_ := true, use_radar_ := false }
                  : UKFState).time_ : ℤ) : ℝ) / 1.0e6)).1,
          Xsig_pred_ := (Prediction (fun M => M)
            ({ sampleState with is_initialized_ := true, use_radar_ := false }
              : UKFState).x_
            ({ sampleState with is_initialized_ := true, use_radar_ := false }
              : UKFState).P_
            ((((⟨SensorType.RADAR, fun _ => 1, 3⟩ :
                  MeasurementPackage).timestamp_ -
               ({ sampleState with is_initialized_ := true, use_radar_ := false }
                  : UKFState).time_ : ℤ) : ℝ) / 1.0e6)).2.1,
          x_ := (Prediction (fun M => M)
            ({ sampleState with is_initialized_ := true, use_radar_ := false }
              : UKFState).x_
            ({ sampleState with is_initialized_ := true, use_radar_ := false }
              : UKFState).P_
            ((((⟨SensorType.RADAR, fun _ => 1, 3⟩ :
                  MeasurementPackage).timestamp_ -
               ({ sampleState with is_initialized_ := true, use_radar_ := false }
                  : UKFState).time_ : ℤ) : ℝ) / 1.0e6)).2.2.1,
          P_ := (Prediction (fun M => M)
            ({ sampleState with is_initialized_ := true, use_radar_ := false }
              : UKFState).x_
            ({ sampleState with is_initialized_ := true, use_radar_ := false }
              : UKFState).P_
            ((((⟨SensorType.RADAR, fun _ => 1, 3⟩ :
                  MeasurementPackage).timestamp_ -
               ({ sampleState with is_initialized_ := true, use_radar_ := false }
                  : UKFState).time_ : ℤ) : ℝ) / 1.0e6)).2.2.2 }) :=
  ⟨rfl, (C8_disabled_sensor_skips_update (fun M => M)
    { sampleState with is_initialized_ := true, use_radar_ := false }
    ⟨SensorType.RADAR, fun _ => 1, 3⟩ rfl).1⟩

end UKF
